import Mathlib

/-!
Verification development for the content-workflow MCP server
(hisham-maarraoui/MCP-Server-Project).

The TypeScript connectors (GitHubService, NotionService,
GoogleCalendarService, WebSearchService) are shallowly embedded as pure
Lean functions.  External effects are made explicit:

* the loosely-typed argument bag of every tool call is a list of
  (field name, JSON value) pairs; each zod schema becomes a parse
  function returning `Except Unit input`;
* every vendor/network call outcome is a parameter of type
  `Except String data` (the string is the vendor error message);
* the ordered list of vendor calls an operation issues is returned
  explicitly as a `List VendorCall` trace, so "no vendor call is made"
  and "refresh happens before the substantive call" are statable;
* JavaScript truthiness (`if (x)`) and `Array.prototype.slice`,
  `String.prototype.includes` semantics are modelled by `jsTruthy`,
  `jsSliceEnd`, `jsIncludes`;
* environment-supplied builtins (`encodeURIComponent`,
  `Date.toLocaleString`) are passed in as function parameters.
-/

namespace MCP

/-- A JSON-ish value, the element type of a loosely-typed argument bag. -/
inductive JVal where
| jstr (s : String)
| jnum (n : Int)
| jbool (b : Bool)
| jarr (xs : List JVal)
| jnull

/-- A loosely-typed argument bag, as received by every connector method. -/
abbrev Args := List (String × JVal)

/-- Field lookup in an argument bag (first binding wins, like a JS object). -/
def getField (args : Args) (k : String) : Option JVal :=
  (args.find? (fun p => p.1 = k)).map Prod.snd

/-- zod `z.string()` on a required field. -/
def reqStr (args : Args) (k : String) : Except Unit String :=
  match getField args k with
  | some (JVal.jstr s) => Except.ok s
  | _ => Except.error ()

/-- zod `z.string().optional()`. -/
def optStr (args : Args) (k : String) : Except Unit (Option String) :=
  match getField args k with
  | none => Except.ok none
  | some (JVal.jstr s) => Except.ok (some s)
  | some _ => Except.error ()

/-- zod `z.array(z.string()).optional()`. -/
def optStrArr (args : Args) (k : String) : Except Unit (Option (List String)) :=
  match getField args k with
  | none => Except.ok none
  | some (JVal.jarr xs) =>
    let rec strs : List JVal → Except Unit (List String)
      | [] => Except.ok []
      | JVal.jstr s :: rest => (strs rest).map (fun tl => s :: tl)
      | _ :: _ => Except.error ()
    strs xs
  | some _ => Except.error ()

/-- zod `z.number().default(d)`. -/
def numDefault (args : Args) (k : String) (d : Int) : Except Unit Int :=
  match getField args k with
  | none => Except.ok d
  | some (JVal.jnum n) => Except.ok n
  | some _ => Except.error ()

/-- zod `z.enum(choices).default(d)`. -/
def enumDefault (args : Args) (k : String) (choices : List String) (d : String) :
    Except Unit String :=
  match getField args k with
  | none => Except.ok d
  | some (JVal.jstr s) => if s ∈ choices then Except.ok s else Except.error ()
  | some _ => Except.error ()

/-- zod `z.enum(choices).optional()`. -/
def enumOpt (args : Args) (k : String) (choices : List String) :
    Except Unit (Option String) :=
  match getField args k with
  | none => Except.ok none
  | some (JVal.jstr s) => if s ∈ choices then Except.ok (some s) else Except.error ()
  | some _ => Except.error ()

/-- JavaScript truthiness of an optional string (`undefined` and `""` are falsy). -/
def jsTruthy : Option String → Bool
  | none => false
  | some s => !s.isEmpty

/-- JavaScript `a || d` for an optional string `a` and a string default `d`. -/
def jsOrStr (o : Option String) (d : String) : String :=
  match o with
  | some s => if s.isEmpty then d else s
  | none => d

/-- JavaScript `xs.join(sep) || "None"` (an empty join is falsy). -/
def joinOrNone (sep : String) (xs : List String) : String :=
  let j := String.intercalate sep xs
  if j.isEmpty then "None" else j

/-- Does the first character list start with the second? -/
def charsStartWith : List Char → List Char → Bool
  | _, [] => true
  | [], _ :: _ => false
  | a :: as, b :: bs => a = b && charsStartWith as bs

/-- Does the first character list contain the second as a contiguous run? -/
def charsContain : List Char → List Char → Bool
  | s, sub =>
    if charsStartWith s sub then true
    else
      match s with
      | [] => false
      | _ :: as => charsContain as sub

/-- JavaScript `s.includes(sub)`. -/
def jsIncludes (s sub : String) : Bool :=
  charsContain s.data sub.data

/-- JavaScript `xs.slice(0, e)`: a negative end index counts from the end. -/
def jsSliceEnd {α : Type} (xs : List α) (e : Int) : List α :=
  if 0 ≤ e then xs.take e.toNat
  else xs.take ((xs.length : Int) + e).toNat

/-- One entry of the `content` list of a tool result. -/
structure ContentBlock where
  type : String
  text : String
deriving DecidableEq

/-- The uniform success envelope returned by every connector operation. -/
structure ToolCallResult where
  content : List ContentBlock
deriving DecidableEq

/-- A single text block result, the shape every operation actually returns. -/
def textResult (s : String) : ToolCallResult := ⟨[⟨"text", s⟩]⟩

/-- What a connector method can throw: a zod validation failure from
`schema.parse`, or a generic `Error` carrying a message. -/
inductive TError where
| zod
| err (msg : String)
deriving DecidableEq

/-- Tags for the vendor/network calls an operation can issue, in order. -/
inductive VendorCall where
| octokitIssuesCreate
| octokitGetRef
| octokitCreateRef
| octokitPullsCreate
| notionPagesCreate
| notionPagesUpdate
| notionBlocksAppend
| oauthRefreshToken
| calendarEventsInsert
| calendarEventsList
| calendarEventsUpdate
| calendarEventsDelete
| duckduckgoGet
| axiosGetUrl
deriving DecidableEq

/-! ### GitHubService (src/services/github.ts) -/

/-- The validated GitHub configuration (`GitHubConfigSchema`). -/
structure GitHubConfig where
  token : String
  owner : String
  repo : String
deriving DecidableEq

/-- Error message thrown by the `GitHubService` constructor on missing config. -/
def gitHubConfigMissingMsg : String :=
  "GitHub configuration missing. Please set GITHUB_TOKEN, GITHUB_OWNER, and GITHUB_REPO environment variables."

/-- The `GitHubService` constructor: reads `GITHUB_TOKEN`, `GITHUB_OWNER`,
`GITHUB_REPO` (each possibly unset) and throws if any is falsy
(`!token || !owner || !repo`). -/
def mkGitHubService (token owner repo : Option String) : Except String GitHubConfig :=
  if jsTruthy token = false ∨ jsTruthy owner = false ∨ jsTruthy repo = false then
    Except.error gitHubConfigMissingMsg
  else
    match token, owner, repo with
    | some t, some o, some r => Except.ok ⟨t, o, r⟩
    | _, _, _ => Except.error gitHubConfigMissingMsg

/-- Parsed input of `GitHubService.createIssue`. -/
structure CreateIssueInput where
  title : String
  body : String
  labels : List String
deriving DecidableEq

/-- The zod schema of `createIssue` (`labels = []` destructuring default). -/
def parseCreateIssue (args : Args) : Except Unit CreateIssueInput := do
  let title ← reqStr args "title"
  let body ← reqStr args "body"
  let labels ← optStrArr args "labels"
  Except.ok ⟨title, body, labels.getD []⟩

/-- The fields of the vendor response that `createIssue` renders. -/
structure IssueData where
  number : Nat
  title : String
  html_url : String
  state : String
deriving DecidableEq

/-- `GitHubService.createIssue`: validate, call `octokit.rest.issues.create`,
format a success summary, or wrap the vendor error. -/
def githubCreateIssue (args : Args) (vendor : Except String IssueData) :
    List VendorCall × Except TError ToolCallResult :=
  match parseCreateIssue args with
  | Except.error _ => ([], Except.error TError.zod)
  | Except.ok _input =>
    match vendor with
    | Except.error msg =>
      ([VendorCall.octokitIssuesCreate],
       Except.error (TError.err ("Failed to create GitHub issue: " ++ msg)))
    | Except.ok d =>
      ([VendorCall.octokitIssuesCreate],
       Except.ok (textResult
         ("✅ GitHub issue created successfully!\n\n**Issue #" ++ toString d.number ++
          "**: " ++ d.title ++ "\n\nURL: " ++ d.html_url ++ "\n\nStatus: " ++ d.state)))

/-- Parsed input of `GitHubService.createBranch`. -/
structure CreateBranchInput where
  branchName : String
  baseBranch : String
deriving DecidableEq

/-- The zod schema of `createBranch` (`baseBranch` defaults to `"main"`). -/
def parseCreateBranch (args : Args) : Except Unit CreateBranchInput := do
  let branchName ← reqStr args "branchName"
  let baseBranch ←
    match getField args "baseBranch" with
    | none => Except.ok "main"
    | some (JVal.jstr s) => Except.ok s
    | some _ => Except.error ()
  Except.ok ⟨branchName, baseBranch⟩

/-- `GitHubService.createBranch`: two dependent vendor calls
(`git.getRef` for the base sha, then `git.createRef`). -/
def githubCreateBranch (cfg : GitHubConfig) (args : Args)
    (getRef : Except String String) (createRef : Except String Unit) :
    List VendorCall × Except TError ToolCallResult :=
  match parseCreateBranch args with
  | Except.error _ => ([], Except.error TError.zod)
  | Except.ok input =>
    match getRef with
    | Except.error msg =>
      ([VendorCall.octokitGetRef],
       Except.error (TError.err ("Failed to create GitHub branch: " ++ msg)))
    | Except.ok _sha =>
      match createRef with
      | Except.error msg =>
        ([VendorCall.octokitGetRef, VendorCall.octokitCreateRef],
         Except.error (TError.err ("Failed to create GitHub branch: " ++ msg)))
      | Except.ok _ =>
        ([VendorCall.octokitGetRef, VendorCall.octokitCreateRef],
         Except.ok (textResult
           ("✅ Branch \x27" ++ input.branchName ++ "\x27 created successfully from \x27" ++
            input.baseBranch ++ "\x27!\n\nBranch URL: https://github.com/" ++ cfg.owner ++
            "/" ++ cfg.repo ++ "/tree/" ++ input.branchName)))

/-- Parsed input of `GitHubService.createPullRequest`. -/
structure CreatePullRequestInput where
  title : String
  body : String
  head : String
  base : String
deriving DecidableEq

/-- The zod schema of `createPullRequest` (`base` defaults to `"main"`). -/
def parseCreatePullRequest (args : Args) : Except Unit CreatePullRequestInput := do
  let title ← reqStr args "title"
  let body ← reqStr args "body"
  let head ← reqStr args "head"
  let base ←
    match getField args "base" with
    | none => Except.ok "main"
    | some (JVal.jstr s) => Except.ok s
    | some _ => Except.error ()
  Except.ok ⟨title, body, head, base⟩

/-- The fields of the vendor response that `createPullRequest` renders. -/
structure PullData where
  number : Nat
  title : String
  html_url : String
  state : String
deriving DecidableEq

/-- `GitHubService.createPullRequest`: validate, call `pulls.create`,
format, or wrap the vendor error. -/
def githubCreatePullRequest (args : Args) (vendor : Except String PullData) :
    List VendorCall × Except TError ToolCallResult :=
  match parseCreatePullRequest args with
  | Except.error _ => ([], Except.error TError.zod)
  | Except.ok input =>
    match vendor with
    | Except.error msg =>
      ([VendorCall.octokitPullsCreate],
       Except.error (TError.err ("Failed to create GitHub pull request: " ++ msg)))
    | Except.ok d =>
      ([VendorCall.octokitPullsCreate],
       Except.ok (textResult
         ("✅ Pull request created successfully!\n\n**PR #" ++ toString d.number ++
          "**: " ++ d.title ++ "\n\nURL: " ++ d.html_url ++ "\n\nStatus: " ++ d.state ++
          "\n\nFrom: " ++ input.head ++ " → To: " ++ input.base)))

/-! ### NotionService (src/services/notion.ts) -/

/-- The validated Notion configuration (`NotionConfigSchema`). -/
structure NotionConfig where
  token : String
  databaseId : String
deriving DecidableEq

/-- Error message thrown by the `NotionService` constructor on missing config. -/
def notionConfigMissingMsg : String :=
  "Notion configuration missing. Please set NOTION_TOKEN and NOTION_DATABASE_ID environment variables."

/-- The `NotionService` constructor: reads `NOTION_TOKEN` and
`NOTION_DATABASE_ID` and throws if either is falsy (`!token || !databaseId`). -/
def mkNotionService (token databaseId : Option String) : Except String NotionConfig :=
  if jsTruthy token = false ∨ jsTruthy databaseId = false then
    Except.error notionConfigMissingMsg
  else
    match token, databaseId with
    | some t, some d => Except.ok ⟨t, d⟩
    | _, _ => Except.error notionConfigMissingMsg

/-- Parsed input of `NotionService.createPage`. -/
structure CreatePageInput where
  title : String
  content : String
  tags : List String
deriving DecidableEq

/-- The zod schema of `createPage` (`tags = []` destructuring default). -/
def parseCreatePage (args : Args) : Except Unit CreatePageInput := do
  let title ← reqStr args "title"
  let content ← reqStr args "content"
  let tags ← optStrArr args "tags"
  Except.ok ⟨title, content, tags.getD []⟩

/-- `NotionService.createPage`: validate, call `pages.create` (the vendor
returns the new page id), format, or wrap the vendor error. -/
def notionCreatePage (args : Args) (vendor : Except String String) :
    List VendorCall × Except TError ToolCallResult :=
  match parseCreatePage args with
  | Except.error _ => ([], Except.error TError.zod)
  | Except.ok input =>
    match vendor with
    | Except.error msg =>
      ([VendorCall.notionPagesCreate],
       Except.error (TError.err ("Failed to create Notion page: " ++ msg)))
    | Except.ok pid =>
      ([VendorCall.notionPagesCreate],
       Except.ok (textResult
         ("✅ Notion page created successfully!\n\n**Title**: " ++ input.title ++
          "\n\n**Page ID**: " ++ pid ++ "\n\n**URL**: https://notion.so/" ++
          (pid.replace "-" "") ++ "\n\n**Status**: Draft\n\n**Tags**: " ++
          joinOrNone ", " input.tags)))

/-- Parsed input of `NotionService.updatePage`. -/
structure UpdatePageInput where
  pageId : String
  title : Option String
  content : Option String
  status : Option String
deriving DecidableEq

/-- The zod schema of `updatePage` (`status` enumerated over
Draft/Review/Published). -/
def parseUpdatePage (args : Args) : Except Unit UpdatePageInput := do
  let pageId ← reqStr args "pageId"
  let title ← optStr args "title"
  let content ← optStr args "content"
  let status ← enumOpt args "status" ["Draft", "Review", "Published"]
  Except.ok ⟨pageId, title, content, status⟩

/-- The observable state of a Notion page: its properties and the ordered
list of its paragraph blocks (block text only). -/
structure NotionPage where
  title : String
  status : String
  tags : List String
  blocks : List String
deriving DecidableEq

/-- `a` filtered through JavaScript truthiness: `if (a) ...` keeps only a
non-empty string. -/
def truthyVal (o : Option String) : Option String :=
  match o with
  | some s => if s.isEmpty then none else some s
  | none => none

/-- Semantics of the vendor call `pages.update`: patch only the properties
present in the request body, leaving everything else (and all blocks) alone. -/
def applyPagesUpdate (page : NotionPage) (newTitle newStatus : Option String) :
    NotionPage :=
  { page with
    title := newTitle.getD page.title
    status := newStatus.getD page.status }

/-- Semantics of the vendor call `blocks.children.append`: append the new
paragraph blocks after the existing ones. -/
def applyBlocksAppend (page : NotionPage) (children : List String) : NotionPage :=
  { page with blocks := page.blocks ++ children }

/-- The success summary rendered by `updatePage`. -/
def updatePageText (input : UpdatePageInput) : String :=
  "✅ Notion page updated successfully!\n\n**Page ID**: " ++ input.pageId ++
  "\n\n**URL**: https://notion.so/" ++ (input.pageId.replace "-" "") ++ "\n\n" ++
  (match truthyVal input.title with
   | some t => "**New Title**: " ++ t ++ "\n\n"
   | none => "") ++
  (match truthyVal input.status with
   | some s => "**New Status**: " ++ s ++ "\n\n"
   | none => "") ++
  (match truthyVal input.content with
   | some _ => "**Content added**\n\n"
   | none => "")

/-- `NotionService.updatePage`: validate; build `updateData` from the truthy
`title`/`status`; always call `pages.update`; if `content` is truthy, also
call `blocks.children.append` with one paragraph block.  Returns the trace,
the resulting page state, and the thrown/returned outcome. -/
def notionUpdatePage (args : Args) (page : NotionPage)
    (updateRes : Except String Unit) (appendRes : Except String Unit) :
    List VendorCall × NotionPage × Except TError ToolCallResult :=
  match parseUpdatePage args with
  | Except.error _ => ([], page, Except.error TError.zod)
  | Except.ok input =>
    match updateRes with
    | Except.error msg =>
      ([VendorCall.notionPagesUpdate], page,
       Except.error (TError.err ("Failed to update Notion page: " ++ msg)))
    | Except.ok _ =>
      let page1 := applyPagesUpdate page (truthyVal input.title) (truthyVal input.status)
      match truthyVal input.content with
      | none =>
        ([VendorCall.notionPagesUpdate], page1, Except.ok (textResult (updatePageText input)))
      | some c =>
        match appendRes with
        | Except.error msg =>
          ([VendorCall.notionPagesUpdate, VendorCall.notionBlocksAppend], page1,
           Except.error (TError.err ("Failed to update Notion page: " ++ msg)))
        | Except.ok _ =>
          ([VendorCall.notionPagesUpdate, VendorCall.notionBlocksAppend],
           applyBlocksAppend page1 [c],
           Except.ok (textResult (updatePageText input)))

/-! ### GoogleCalendarService (src/services/google-calendar.ts) -/

/-- The validated Google OAuth configuration (`GoogleConfigSchema`). -/
structure GoogleConfig where
  clientId : String
  clientSecret : String
  redirectUri : String
deriving DecidableEq

/-- Error message thrown by the `GoogleCalendarService` constructor on
missing config. -/
def googleConfigMissingMsg : String :=
  "Google Calendar configuration missing. Please set GOOGLE_CLIENT_ID, GOOGLE_CLIENT_SECRET, and GOOGLE_REDIRECT_URI environment variables."

/-- The `GoogleCalendarService` constructor: reads `GOOGLE_CLIENT_ID`,
`GOOGLE_CLIENT_SECRET`, `GOOGLE_REDIRECT_URI` and throws if any is falsy.
Token-file loading never throws (every file error is caught and logged),
so construction succeeds whenever the three values are truthy. -/
def mkGoogleCalendarService (clientId clientSecret redirectUri : Option String) :
    Except String GoogleConfig :=
  if jsTruthy clientId = false ∨ jsTruthy clientSecret = false ∨
      jsTruthy redirectUri = false then
    Except.error googleConfigMissingMsg
  else
    match clientId, clientSecret, redirectUri with
    | some i, some s, some r => Except.ok ⟨i, s, r⟩
    | _, _, _ => Except.error googleConfigMissingMsg

/-- The OAuth2 client credentials (`oauth2Client.credentials`), as loaded
from `google-tokens.json` or set after a refresh. -/
structure Credentials where
  access_token : Option String
  refresh_token : Option String
  expiry_date : Option Int
deriving DecidableEq

/-- Error thrown by `ensureAuthenticated` when no access token is loaded. -/
def authRequiredMsg : String :=
  "Google Calendar authentication required. Please run the OAuth setup first: npm run oauth-setup"

/-- Error thrown by `ensureAuthenticated` when the refresh call fails. -/
def refreshFailedMsg : String :=
  "Google Calendar token expired and could not be refreshed. Please re-authenticate."

/-- The expiry test of `ensureAuthenticated`:
`tokens.expiry_date && Date.now() >= tokens.expiry_date`
(a numeric `0` is falsy in JavaScript). -/
def expiredNeedsRefresh (creds : Credentials) (now : Int) : Bool :=
  match creds.expiry_date with
  | some d => decide (d ≠ 0) && decide (now ≥ d)
  | none => false

/-- `GoogleCalendarService.ensureAuthenticated`: throw if no access token is
loaded; refresh (one `refreshAccessToken` call) if the token is expired,
storing the fresh credentials on success and throwing on failure.
Returns the vendor-call trace and the credentials in effect afterwards. -/
def ensureAuthenticated (creds : Credentials) (now : Int)
    (refresh : Except String Credentials) :
    List VendorCall × Except String Credentials :=
  if jsTruthy creds.access_token = false then
    ([], Except.error authRequiredMsg)
  else if expiredNeedsRefresh creds now then
    match refresh with
    | Except.ok fresh => ([VendorCall.oauthRefreshToken], Except.ok fresh)
    | Except.error _ => ([VendorCall.oauthRefreshToken], Except.error refreshFailedMsg)
  else
    ([], Except.ok creds)

/-- Parsed input of `GoogleCalendarService.createEvent`. -/
structure CreateEventInput where
  title : String
  description : Option String
  startTime : String
  endTime : String
  attendees : List String
deriving DecidableEq

/-- The zod schema of `createEvent` (`attendees = []` destructuring default). -/
def parseCreateEvent (args : Args) : Except Unit CreateEventInput := do
  let title ← reqStr args "title"
  let description ← optStr args "description"
  let startTime ← reqStr args "startTime"
  let endTime ← reqStr args "endTime"
  let attendees ← optStrArr args "attendees"
  Except.ok ⟨title, description, startTime, endTime, attendees.getD []⟩

/-- The fields of the vendor response that `createEvent` renders. -/
structure EventData where
  summary : String
  startDateTime : String
  endDateTime : String
  description : Option String
  attendees : List String
  htmlLink : String
deriving DecidableEq

/-- The mock text returned by `createEvent` whenever its try block throws.
`fmt` stands for the environment builtin `s => new Date(s).toLocaleString()`. -/
def mockEventText (fmt : String → String) (input : CreateEventInput) : String :=
  "📅 **Mock Calendar Event Created**\n\n**Event**: " ++ input.title ++
  "\n\n**Start**: " ++ fmt input.startTime ++ "\n**End**: " ++ fmt input.endTime ++
  "\n\n**Description**: " ++ jsOrStr input.description "Content development deadline" ++
  "\n\n**Attendees**: " ++ joinOrNone ", " input.attendees ++
  "\n\n*Note: This is a mock response. In production, complete OAuth authentication to create real calendar events.*"

/-- The success text of `createEvent`. -/
def realEventText (fmt : String → String) (d : EventData) : String :=
  "✅ Calendar event created successfully!\n\n**Event**: " ++ d.summary ++
  "\n\n**Start**: " ++ fmt d.startDateTime ++ "\n**End**: " ++ fmt d.endDateTime ++
  "\n\n**Description**: " ++ jsOrStr d.description "No description" ++
  "\n\n**Attendees**: " ++ joinOrNone ", " d.attendees ++
  "\n\n**Event URL**: " ++ d.htmlLink

/-- `GoogleCalendarService.createEvent`: validate; `ensureAuthenticated`;
call `events.insert`.  The catch block swallows EVERY error (authentication
or vendor) and returns a mock success result instead of re-throwing. -/
def calendarCreateEvent (creds : Credentials) (now : Int) (fmt : String → String)
    (args : Args) (refresh : Except String Credentials)
    (insert : Except String EventData) :
    List VendorCall × Except TError ToolCallResult :=
  match parseCreateEvent args with
  | Except.error _ => ([], Except.error TError.zod)
  | Except.ok input =>
    match ensureAuthenticated creds now refresh with
    | (calls, Except.error _) =>
      (calls, Except.ok (textResult (mockEventText fmt input)))
    | (calls, Except.ok _) =>
      match insert with
      | Except.error _ =>
        (calls ++ [VendorCall.calendarEventsInsert],
         Except.ok (textResult (mockEventText fmt input)))
      | Except.ok d =>
        (calls ++ [VendorCall.calendarEventsInsert],
         Except.ok (textResult (realEventText fmt d)))

/-- Parsed input of `GoogleCalendarService.listEvents`. -/
structure ListEventsInput where
  timeMin : Option String
  timeMax : Option String
  maxResults : Int
deriving DecidableEq

/-- The zod schema of `listEvents` (`maxResults` defaults to 10). -/
def parseListEvents (args : Args) : Except Unit ListEventsInput := do
  let timeMin ← optStr args "timeMin"
  let timeMax ← optStr args "timeMax"
  let maxResults ← numDefault args "maxResults" 10
  Except.ok ⟨timeMin, timeMax, maxResults⟩

/-- One event of the vendor response that `listEvents` renders. -/
structure EventItem where
  title : String
  start : String
  «end» : String
  attendees : List String
  url : String
deriving DecidableEq

/-- The mock text returned by `listEvents` on an authentication error.
`fmtTs` stands for `t => new Date(t).toLocaleString()` on millisecond
timestamps. -/
def mockEventsText (fmtTs : Int → String) (now : Int) : String :=
  "📅 **Mock Calendar Events**\n\n• **Content Review Meeting**\n  Start: " ++
  fmtTs now ++ "\n  End: " ++ fmtTs (now + 60 * 60 * 1000) ++
  "\n  Attendees: team@example.com\n\n• **Publishing Deadline**\n  Start: " ++
  fmtTs (now + 24 * 60 * 60 * 1000) ++ "\n  End: " ++
  fmtTs (now + 24 * 60 * 60 * 1000 + 30 * 60 * 1000) ++
  "\n  Attendees: None\n\n*Note: This is a mock response. In production, complete OAuth authentication to list real calendar events.*"

/-- The success text of `listEvents`. -/
def listEventsText (fmt : String → String) (items : List EventItem) : String :=
  "📅 Upcoming calendar events:\n\n" ++
  String.intercalate "\n\n" (items.map (fun e =>
    "• **" ++ e.title ++ "**\n  Start: " ++ fmt e.start ++ "\n  End: " ++
    fmt e.«end» ++ "\n  Attendees: " ++ joinOrNone ", " e.attendees ++
    "\n  URL: " ++ e.url))

/-- `GoogleCalendarService.listEvents`: validate; `ensureAuthenticated`;
call `events.list`.  The catch block returns a mock result when the caught
error message contains the word "authentication" and otherwise re-throws a
wrapped error. -/
def calendarListEvents (creds : Credentials) (now : Int)
    (fmtTs : Int → String) (fmt : String → String) (args : Args)
    (refresh : Except String Credentials)
    (vendor : Except String (List EventItem)) :
    List VendorCall × Except TError ToolCallResult :=
  match parseListEvents args with
  | Except.error _ => ([], Except.error TError.zod)
  | Except.ok _input =>
    match ensureAuthenticated creds now refresh with
    | (calls, Except.error msg) =>
      if jsIncludes msg "authentication" then
        (calls, Except.ok (textResult (mockEventsText fmtTs now)))
      else
        (calls, Except.error (TError.err ("Failed to list calendar events: " ++ msg)))
    | (calls, Except.ok _) =>
      match vendor with
      | Except.error msg =>
        if jsIncludes msg "authentication" then
          (calls ++ [VendorCall.calendarEventsList],
           Except.ok (textResult (mockEventsText fmtTs now)))
        else
          (calls ++ [VendorCall.calendarEventsList],
           Except.error (TError.err ("Failed to list calendar events: " ++ msg)))
      | Except.ok items =>
        (calls ++ [VendorCall.calendarEventsList],
         Except.ok (textResult (listEventsText fmt items)))

/-- Parsed input of `GoogleCalendarService.updateEvent`. -/
structure UpdateEventInput where
  eventId : String
  title : Option String
  description : Option String
  startTime : Option String
  endTime : Option String
deriving DecidableEq

/-- The zod schema of `updateEvent`. -/
def parseUpdateEvent (args : Args) : Except Unit UpdateEventInput := do
  let eventId ← reqStr args "eventId"
  let title ← optStr args "title"
  let description ← optStr args "description"
  let startTime ← optStr args "startTime"
  let endTime ← optStr args "endTime"
  Except.ok ⟨eventId, title, description, startTime, endTime⟩

/-- `GoogleCalendarService.updateEvent`: validate; `ensureAuthenticated`;
call `events.update`; on ANY caught error re-throw it wrapped. -/
def calendarUpdateEvent (creds : Credentials) (now : Int) (fmt : String → String)
    (args : Args) (refresh : Except String Credentials)
    (vendor : Except String EventData) :
    List VendorCall × Except TError ToolCallResult :=
  match parseUpdateEvent args with
  | Except.error _ => ([], Except.error TError.zod)
  | Except.ok _input =>
    match ensureAuthenticated creds now refresh with
    | (calls, Except.error msg) =>
      (calls, Except.error (TError.err ("Failed to update calendar event: " ++ msg)))
    | (calls, Except.ok _) =>
      match vendor with
      | Except.error msg =>
        (calls ++ [VendorCall.calendarEventsUpdate],
         Except.error (TError.err ("Failed to update calendar event: " ++ msg)))
      | Except.ok d =>
        (calls ++ [VendorCall.calendarEventsUpdate],
         Except.ok (textResult
           ("✅ Calendar event updated successfully!\n\n**Event**: " ++ d.summary ++
            "\n\n**Start**: " ++ fmt d.startDateTime ++ "\n**End**: " ++
            fmt d.endDateTime ++ "\n\n**Event URL**: " ++ d.htmlLink)))

/-- Parsed input of `GoogleCalendarService.deleteEvent`. -/
structure DeleteEventInput where
  eventId : String
deriving DecidableEq

/-- The zod schema of `deleteEvent`. -/
def parseDeleteEvent (args : Args) : Except Unit DeleteEventInput := do
  let eventId ← reqStr args "eventId"
  Except.ok ⟨eventId⟩

/-- `GoogleCalendarService.deleteEvent`: validate; `ensureAuthenticated`;
call `events.delete`; on ANY caught error re-throw it wrapped. -/
def calendarDeleteEvent (creds : Credentials) (now : Int) (args : Args)
    (refresh : Except String Credentials) (vendor : Except String Unit) :
    List VendorCall × Except TError ToolCallResult :=
  match parseDeleteEvent args with
  | Except.error _ => ([], Except.error TError.zod)
  | Except.ok input =>
    match ensureAuthenticated creds now refresh with
    | (calls, Except.error msg) =>
      (calls, Except.error (TError.err ("Failed to delete calendar event: " ++ msg)))
    | (calls, Except.ok _) =>
      match vendor with
      | Except.error msg =>
        (calls ++ [VendorCall.calendarEventsDelete],
         Except.error (TError.err ("Failed to delete calendar event: " ++ msg)))
      | Except.ok _ =>
        (calls ++ [VendorCall.calendarEventsDelete],
         Except.ok (textResult
           ("✅ Calendar event deleted successfully!\n\n**Event ID**: " ++ input.eventId)))

/-! ### Interleaving model of concurrent `ensureAuthenticated` callers

Two tool invocations can run `ensureAuthenticated` concurrently; within one
invocation the only suspension point is `await this.oauth2Client.refreshAccessToken()`.
Each caller therefore executes as two atomic steps against the shared
`oauth2Client` state: (1) read the credentials, check expiry and, if a refresh
is needed, ISSUE the refresh call; (2) once the refresh resolves, store the
fresh credentials with `setCredentials`.  The source contains no lock, flag or
shared promise guarding this sequence. -/

/-- Shared state: the OAuth client credentials plus a counter of
`refreshAccessToken` calls issued so far. -/
structure CalSharedState where
  creds : Credentials
  refreshCalls : Nat
deriving DecidableEq

/-- Program counter of one `ensureAuthenticated` caller. -/
inductive RefreshPc where
| ready
| awaitingRefresh
| finished
deriving DecidableEq

/-- One atomic step of one caller, exactly as the source interleaves at its
single await point.  `fresh` is the credentials the refresh call resolves to. -/
def callerStep (now : Int) (fresh : Credentials) (st : CalSharedState)
    (pc : RefreshPc) : CalSharedState × RefreshPc :=
  match pc with
  | RefreshPc.ready =>
    if jsTruthy st.creds.access_token = false then
      (st, RefreshPc.finished)
    else if expiredNeedsRefresh st.creds now then
      ({ st with refreshCalls := st.refreshCalls + 1 }, RefreshPc.awaitingRefresh)
    else
      (st, RefreshPc.finished)
  | RefreshPc.awaitingRefresh => ({ st with creds := fresh }, RefreshPc.finished)
  | RefreshPc.finished => (st, RefreshPc.finished)

/-- Two concurrent callers over the shared calendar connector state. -/
structure TwoCallers where
  shared : CalSharedState
  pcA : RefreshPc
  pcB : RefreshPc
deriving DecidableEq

/-- Run one step of caller A (`true`) or caller B (`false`). -/
def scheduleStep (now : Int) (fresh : Credentials) (s : TwoCallers) (who : Bool) :
    TwoCallers :=
  if who then
    let r := callerStep now fresh s.shared s.pcA
    { s with shared := r.1, pcA := r.2 }
  else
    let r := callerStep now fresh s.shared s.pcB
    { s with shared := r.1, pcB := r.2 }

/-- Run a schedule (a list of caller choices) from an initial state. -/
def runSchedule (now : Int) (fresh : Credentials) :
    TwoCallers → List Bool → TwoCallers
  | s, [] => s
  | s, w :: ws => runSchedule now fresh (scheduleStep now fresh s w) ws

/-! ### WebSearchService (src/services/web-search.ts) -/

/-- The `WebSearchService` constructor: the mode flag is read once from
`process.env.WEB_SEARCH_ENABLED === "true"` and stored in the private,
never-reassigned field `enabled`. -/
def mkWebSearchService (env : Option String) : Bool :=
  env = some "true"

/-- Parsed input of `WebSearchService.search`. -/
structure SearchInput where
  query : String
  maxResults : Int
deriving DecidableEq

/-- The zod schema of `search` (`maxResults` defaults to 5). -/
def parseSearch (args : Args) : Except Unit SearchInput := do
  let query ← reqStr args "query"
  let maxResults ← numDefault args "maxResults" 5
  Except.ok ⟨query, maxResults⟩

/-- One result item assembled by `search` in live mode. -/
structure SearchItem where
  title : String
  url : String
  snippet : String
  type : String
deriving DecidableEq

/-- One entry of the DuckDuckGo `RelatedTopics` array. -/
structure DDGTopic where
  text : Option String
  firstURL : Option String
deriving DecidableEq

/-- The fields of the DuckDuckGo Instant Answer response that `search` uses. -/
structure DDGData where
  abstractText : Option String
  heading : Option String
  abstractURL : Option String
  relatedTopics : List DDGTopic
deriving DecidableEq

/-- `topic.Text?.split(" - ")[0] || "Related Topic"`. -/
def relatedTitle (t : Option String) : String :=
  match t with
  | none => "Related Topic"
  | some s =>
    let firstPart := (s.splitOn " - ").headD ""
    if firstPart.isEmpty then "Related Topic" else firstPart

/-- The two hard-coded mock results `search` pads with in live mode.
`enc` stands for the environment builtin `encodeURIComponent`. -/
def mockSearchItems (enc : String → String) (query : String) : List SearchItem :=
  [⟨"Search result for: " ++ query,
    "https://example.com/search?q=" ++ enc query,
    "This is a sample search result for \"" ++ query ++ "\". In a real implementation, this would contain actual web search results.",
    "search_result"⟩,
   ⟨"More information about: " ++ query,
    "https://sample.org/info/" ++ enc query,
    "Additional information and resources related to \"" ++ query ++ "\". This demonstrates the web search functionality.",
    "search_result"⟩]

/-- The organic (non-mock) results `search` assembles in live mode: the
instant answer if `AbstractText` is truthy, then up to
`min (maxResults - got) 3` related topics. -/
def organicResults (maxResults : Int) (data : DDGData) :
    List SearchItem :=
  let results : List SearchItem :=
    if jsTruthy data.abstractText then
      [⟨jsOrStr data.heading "Instant Answer", data.abstractURL.getD "",
        data.abstractText.getD "", "instant_answer"⟩]
    else []
  if data.relatedTopics.length > 0 then
    results ++
      (jsSliceEnd data.relatedTopics (min (maxResults - (results.length : Int)) 3)).map
        (fun t => ⟨relatedTitle t.text, t.firstURL.getD "", t.text.getD "",
                   "related_topic"⟩)
  else results

/-- The full live-mode result list of `search`: the organic results, padded
with the hard-coded mock results whenever fewer than `maxResults` organic
results were found. -/
def liveSearchResults (enc : String → String) (query : String) (maxResults : Int)
    (data : DDGData) : List SearchItem :=
  let results := organicResults maxResults data
  if (results.length : Int) < maxResults then
    results ++ jsSliceEnd (mockSearchItems enc query) (maxResults - (results.length : Int))
  else results

/-- The rendering of a live-mode result list. -/
def renderSearchResults (query : String) (results : List SearchItem) : String :=
  "🔍 **Web Search Results for: \"" ++ query ++ "\"**\n\n" ++
  String.intercalate "\n\n" (results.enum.map (fun p =>
    toString (p.1 + 1) ++ ". **" ++ p.2.title ++ "**\n   URL: " ++ p.2.url ++
    "\n   " ++ p.2.snippet ++ "\n   Type: " ++ p.2.type))

/-- The deterministic placeholder text returned in disabled mode. -/
def mockSearchText (query : String) : String :=
  "🔍 **Mock Web Search Results for: \"" ++ query ++
  "\"**\n\n• **Result 1**: Example.com - Sample search result about " ++ query ++
  "\n• **Result 2**: Sample.org - Another relevant result for " ++ query ++
  "\n• **Result 3**: Test.net - Additional information about " ++ query ++
  "\n\n*Note: This is a mock response. Enable WEB_SEARCH_ENABLED=true to perform real web searches.*"

/-- The mock text returned by the live-mode catch block of `search`. -/
def errorMockSearchText (query : String) : String :=
  "🔍 **Web Search Results for: \"" ++ query ++
  "\"** (Mock due to error)\n\n1. **Sample Result 1**\n   URL: https://example.com\n   This is a sample search result for \"" ++
  query ++
  "\". The actual search encountered an error.\n   Type: search_result\n\n2. **Sample Result 2**\n   URL: https://sample.org\n   Another sample result demonstrating the search functionality.\n   Type: search_result"

/-- The text `search` produces for a validated input, by mode and vendor
outcome: mock text in disabled mode; in live mode, either the rendered
(possibly mock-padded) results or the error mock text from the catch block. -/
def searchResultText (enc : String → String) (enabled : Bool) (query : String)
    (maxResults : Int) (vendor : Except String DDGData) : String :=
  if enabled = false then
    mockSearchText query
  else
    match vendor with
    | Except.error _ => errorMockSearchText query
    | Except.ok data =>
      renderSearchResults query (liveSearchResults enc query maxResults data)

/-- `WebSearchService.search`: validate, then — in disabled mode — return
the placeholder with no network call; in live mode issue the DuckDuckGo GET
and NEVER throw: both the vendor-error path and the thin-results path return
a success-shaped result containing mock text. -/
def webSearch (enc : String → String) (enabled : Bool) (args : Args)
    (vendor : Except String DDGData) :
    List VendorCall × Except TError ToolCallResult :=
  match parseSearch args with
  | Except.error _ => ([], Except.error TError.zod)
  | Except.ok input =>
    ((if enabled then [VendorCall.duckduckgoGet] else []),
     Except.ok (textResult
       (searchResultText enc enabled input.query input.maxResults vendor)))

/-- Parsed input of `WebSearchService.extractContent`.  The zod check
`z.string().url()` is modelled by the predicate parameter `isUrl`
(zod delegates to the WHATWG `URL` parser of the runtime). -/
structure ExtractContentInput where
  url : String
deriving DecidableEq

/-- The zod schema of `extractContent`. -/
def parseExtractContent (isUrl : String → Bool) (args : Args) :
    Except Unit ExtractContentInput := do
  let url ← reqStr args "url"
  if isUrl url then Except.ok ⟨url⟩ else Except.error ()

/-- The fields `extractContent` renders from a fetched page. -/
structure ExtractedPage where
  title : String
  description : String
  content : String
deriving DecidableEq

/-- `WebSearchService.extractContent`: validate; in disabled mode return the
placeholder with no network call; in live mode fetch the URL and on ANY
caught error return a success-shaped failure text (no re-throw). -/
def webExtractContent (isUrl : String → Bool) (enabled : Bool) (args : Args)
    (vendor : Except String ExtractedPage) :
    List VendorCall × Except TError ToolCallResult :=
  match parseExtractContent isUrl args with
  | Except.error _ => ([], Except.error TError.zod)
  | Except.ok input =>
    if enabled = false then
      ([], Except.ok (textResult
        ("📄 **Mock Content Extraction from: " ++ input.url ++
         "**\n\n**Title**: Sample Article Title\n\n**Content**:\nThis is a mock content extraction from the provided URL. In a real implementation, this would contain the actual content extracted from the webpage.\n\nThe content would include the main text, headings, and other relevant information from the page.\n\n*Note: This is a mock response. Enable WEB_SEARCH_ENABLED=true to perform real content extraction.*")))
    else
      match vendor with
      | Except.error msg =>
        ([VendorCall.axiosGetUrl], Except.ok (textResult
          ("❌ **Content Extraction Failed**\n\n**URL**: " ++ input.url ++
           "\n\n**Error**: " ++ msg ++
           "\n\n*The content could not be extracted from this URL. This might be due to access restrictions, network issues, or the page structure.*")))
      | Except.ok page =>
        ([VendorCall.axiosGetUrl], Except.ok (textResult
          ("📄 **Content Extraction from: " ++ input.url ++ "**\n\n**Title**: " ++
           page.title ++ "\n\n**Description**: " ++ page.description ++
           "\n\n**Content**:\n" ++
           (if page.content.isEmpty then "No content could be extracted from this page."
            else page.content) ++
           "\n\n**Word Count**: " ++
           toString (page.content.splitOn " ").length ++ " words")))

/-- Parsed input of `WebSearchService.researchTopic`. -/
structure ResearchTopicInput where
  topic : String
  depth : String
deriving DecidableEq

/-- The zod schema of `researchTopic` (`depth` enumerated over
basic/comprehensive with default "comprehensive"). -/
def parseResearchTopic (args : Args) : Except Unit ResearchTopicInput := do
  let topic ← reqStr args "topic"
  let depth ← enumDefault args "depth" ["basic", "comprehensive"] "comprehensive"
  Except.ok ⟨topic, depth⟩

/-- The `searchQueries` list of `researchTopic`: five fixed topic-qualified
queries for comprehensive depth, the bare topic otherwise. -/
def researchQueries (topic depth : String) : List String :=
  if depth = "comprehensive" then
    [topic,
     topic ++ " overview",
     topic ++ " latest trends",
     topic ++ " best practices",
     topic ++ " examples"]
  else [topic]

/-- One entry of the Key Findings section: the query in bold, then the
query result truncated to its first five lines
(`r.results.split("\n").slice(0, 5).join("\n")`), then an ellipsis. -/
def keyFindingEntry (query results : String) : String :=
  "**" ++ query ++ "**:\n" ++
  String.intercalate "\n" ((results.splitOn "\n").take 5) ++ "..."

/-- The consolidated summary rendered by `researchTopic`. -/
def researchSummary (topic depth : String) (queries : List String)
    (results : List (String × String)) : String :=
  "🔬 **Research Summary for: \"" ++ topic ++ "\"**\n\n**Research Depth**: " ++
  depth ++ "\n\n**Search Queries Used**:\n" ++
  String.intercalate "\n" (queries.map (fun q => "• " ++ q)) ++
  "\n\n**Key Findings**:\n" ++
  String.intercalate "\n\n" (results.map (fun r => keyFindingEntry r.1 r.2)) ++
  "\n\n**Recommendations**:\n• Consider the latest trends and best practices identified\n• Review multiple sources for comprehensive understanding\n• Focus on practical examples and real-world applications"

/-- `WebSearchService.researchTopic`: validate; loop over the query list
calling `this.search({ query, maxResults: 3 })` for each (these calls never
throw — `search` catches every vendor error); render the summary.  `vendor`
gives the per-query DuckDuckGo outcome. -/
def webResearchTopic (enc : String → String) (enabled : Bool) (args : Args)
    (vendor : String → Except String DDGData) :
    List VendorCall × Except TError ToolCallResult :=
  match parseResearchTopic args with
  | Except.error _ => ([], Except.error TError.zod)
  | Except.ok input =>
    let queries := researchQueries input.topic input.depth
    let results := queries.map (fun q =>
      (q, searchResultText enc enabled q 3 (vendor q)))
    ((if enabled then queries.map (fun _ => VendorCall.duckduckgoGet) else []),
     Except.ok (textResult
       (researchSummary input.topic input.depth queries results)))

/-! ### Workflow orchestrator (ContentWorkflowService)

`src/services/content-workflow.ts` is not present in the repository
snapshot — only its callers (`src/index.ts`, `src/test.ts`) are — so the
orchestrator is modelled from the specification (sections 3 and 4.2). -/

/-- Modelled from the spec: the outcome of one external call within a
composite operation (`WorkflowStepOutcome`, spec section 3); the missing
source file is `src/services/content-workflow.ts`. -/
structure WorkflowStepOutcome where
  stepName : String
  success : Bool
  detail : String
deriving DecidableEq

/-- Modelled from the spec: the overall status of a `WorkflowResult`
(spec section 3).  The spec calls the middle status "partial"; it is the
status of an operation in which at least one but not every step succeeded. -/
inductive WorkflowStatus where
| complete
| degraded
| failed
deriving DecidableEq

/-- Modelled from the spec: the aggregate outcome of a composite operation
(`WorkflowResult`, spec section 3). -/
structure WorkflowResult where
  steps : List WorkflowStepOutcome
  status : WorkflowStatus
deriving DecidableEq

/-- Modelled from the spec: the status rule of spec section 3 — complete iff
all steps succeeded, "partial" (here `degraded`) iff at least one succeeded
(but not all), failed iff none did. -/
def computeStatus (steps : List WorkflowStepOutcome) : WorkflowStatus :=
  if steps.all (fun s => s.success) then WorkflowStatus.complete
  else if steps.any (fun s => s.success) then WorkflowStatus.degraded
  else WorkflowStatus.failed

/-- Per-step success oracle for Create Content Plan (spec section 4.2):
research, planning page, tracking issue, milestone event, deadline event. -/
structure PlanOracle where
  research : Bool
  notionPage : Bool
  githubIssue : Bool
  milestoneEvent : Bool
  deadlineEvent : Bool
deriving DecidableEq

/-- Modelled from the spec: Create Content Plan attempts all five steps —
each failure is recorded, never fatal — and assembles a `WorkflowResult`
over every attempted step. -/
def createContentPlan (o : PlanOracle) : WorkflowResult :=
  let steps : List WorkflowStepOutcome :=
    [⟨"research", o.research, "web research on the topic"⟩,
     ⟨"notion page", o.notionPage, "planning page in the document workspace"⟩,
     ⟨"github issue", o.githubIssue, "tracking issue in the source host"⟩,
     ⟨"milestone event", o.milestoneEvent, "milestone reminder before the deadline"⟩,
     ⟨"deadline event", o.deadlineEvent, "deadline event at the deadline"⟩]
  ⟨steps, computeStatus steps⟩

/-- Per-step success oracle for Research Topic (spec section 4.2):
research queries, findings page, tracking issue. -/
structure ResearchOracle where
  research : Bool
  notionPage : Bool
  githubIssue : Bool
deriving DecidableEq

/-- Modelled from the spec: Research Topic attempts all three steps,
each best-effort, and assembles a `WorkflowResult` over all of them. -/
def researchTopicWorkflow (o : ResearchOracle) : WorkflowResult :=
  let steps : List WorkflowStepOutcome :=
    [⟨"research", o.research, "search queries issued"⟩,
     ⟨"notion page", o.notionPage, "findings documented in the workspace"⟩,
     ⟨"github issue", o.githubIssue, "tracking issue referencing the page"⟩]
  ⟨steps, computeStatus steps⟩

/-- Branch-creation outcome for Publish Content: created, failed because
the branch already exists (treated as success), or failed otherwise. -/
inductive BranchOutcome where
| created
| alreadyExists
| failedOther
deriving DecidableEq

/-- Per-step oracle for Publish Content (spec section 4.2). -/
structure PublishOracle where
  fetch : Bool
  branch : BranchOutcome
  pullRequest : Bool
  statusUpdate : Bool
deriving DecidableEq

/-- Modelled from the spec: Publish Content — the page fetch is the only
fatal step (on failure no further step is attempted and the status is
failed); an already-existing branch counts as success; the pull-request
step is skipped (recorded as an unsuccessful outcome with a skipped
reason) when the branch step failed; the status update is best-effort. -/
def publishContent (o : PublishOracle) : WorkflowResult :=
  if o.fetch = false then
    let steps : List WorkflowStepOutcome :=
      [⟨"fetch page", false, "could not fetch the content page"⟩]
    ⟨steps, WorkflowStatus.failed⟩
  else
    let branchOk := o.branch ≠ BranchOutcome.failedOther
    let steps : List WorkflowStepOutcome :=
      [⟨"fetch page", true, "content page fetched"⟩,
       ⟨"create branch", branchOk,
        if o.branch = BranchOutcome.alreadyExists then "branch already exists"
        else "branch creation"⟩,
       (if branchOk then
          ⟨"pull request", o.pullRequest, "pull request to the base branch"⟩
        else
          ⟨"pull request", false, "skipped: no head branch"⟩),
       ⟨"status update", o.statusUpdate, "page status set to Review"⟩]
    ⟨steps, computeStatus steps⟩

/-! ## Theorems -/

/-- The status classification a `WorkflowResult` must satisfy (spec section 3,
with the three cases read as the usual mutually exclusive classification):
complete iff all steps succeeded, "partial" (`degraded`) iff at least one
succeeded but not all, failed iff none succeeded. -/
def statusSpec (r : WorkflowResult) : Prop :=
  (r.status = WorkflowStatus.complete ↔ ∀ s ∈ r.steps, s.success = true) ∧
  (r.status = WorkflowStatus.degraded ↔
    ((∃ s ∈ r.steps, s.success = true) ∧ ¬ ∀ s ∈ r.steps, s.success = true)) ∧
  (r.status = WorkflowStatus.failed ↔ ∀ s ∈ r.steps, s.success = false)

theorem computeStatus_spec (steps : List WorkflowStepOutcome) (h : steps ≠ []) :
    statusSpec ⟨steps, computeStatus steps⟩ := by
  obtain ⟨s0, hs0⟩ : ∃ s, s ∈ steps := by
    cases steps with
    | nil => exact absurd rfl h
    | cons a l => exact ⟨a, List.mem_cons_self a l⟩
  have hallIff : steps.all (fun s => s.success) = true ↔ ∀ s ∈ steps, s.success = true :=
    List.all_eq_true
  have hanyIff : steps.any (fun s => s.success) = true ↔ ∃ s ∈ steps, s.success = true :=
    List.any_eq_true
  by_cases hall : steps.all (fun s => s.success) = true
  · have h1 : ∀ s ∈ steps, s.success = true := hallIff.mp hall
    have hc : computeStatus steps = WorkflowStatus.complete := by
      unfold computeStatus
      simp [hall]
    refine ⟨⟨fun _ => h1, fun _ => hc⟩, ⟨?_, ?_⟩, ⟨?_, ?_⟩⟩
    · intro heq
      rw [hc] at heq
      exact absurd heq (by simp)
    · rintro ⟨_, hna⟩
      exact (hna h1).elim
    · intro heq
      rw [hc] at heq
      exact absurd heq (by simp)
    · intro hff
      have ht := h1 s0 hs0
      have hf := hff s0 hs0
      rw [ht] at hf
      cases hf
  · by_cases hany : steps.any (fun s => s.success) = true
    · have hd : computeStatus steps = WorkflowStatus.degraded := by
        unfold computeStatus
        rw [Bool.not_eq_true] at hall
        simp [hall, hany]
      refine ⟨⟨?_, ?_⟩, ⟨fun _ => ⟨hanyIff.mp hany, fun h1 => hall (hallIff.mpr h1)⟩,
        fun _ => hd⟩, ⟨?_, ?_⟩⟩
      · intro heq
        rw [hd] at heq
        exact absurd heq (by simp)
      · intro h1
        exact absurd (hallIff.mpr h1) hall
      · intro heq
        rw [hd] at heq
        exact absurd heq (by simp)
      · intro hff
        obtain ⟨s, hsm, hst⟩ := hanyIff.mp hany
        have := hff s hsm
        rw [hst] at this
        cases this
    · have hfail : ∀ s ∈ steps, s.success = false := by
        intro s hs
        cases hsuc : s.success with
        | false => rfl
        | true => exact absurd (hanyIff.mpr ⟨s, hs, hsuc⟩) hany
      have hf : computeStatus steps = WorkflowStatus.failed := by
        unfold computeStatus
        rw [Bool.not_eq_true] at hall hany
        simp [hall, hany]
      refine ⟨⟨?_, ?_⟩, ⟨?_, ?_⟩, ⟨fun _ => hfail, fun _ => hf⟩⟩
      · intro heq
        rw [hf] at heq
        exact absurd heq (by simp)
      · intro h1
        have ht := h1 s0 hs0
        have hfs := hfail s0 hs0
        rw [ht] at hfs
        cases hfs
      · intro heq
        rw [hf] at heq
        exact absurd heq (by simp)
      · rintro ⟨⟨s, hm, ht⟩, _⟩
        exact absurd (hanyIff.mpr ⟨s, hm, ht⟩) hany

/-- C1: each of the three composite workflow operations reports the outcome
of every step it attempted — five for the content plan, three for the
research workflow, and for publish either the single fatal fetch step or all
four steps — and the overall status is complete iff all reported steps
succeeded, "partial" (`degraded`) iff at least one (but not all) succeeded,
failed iff none did. -/
theorem c1_workflow_result_invariant (po : PlanOracle) (ro : ResearchOracle)
    (pu : PublishOracle) :
    (createContentPlan po).steps.length = 5 ∧
    statusSpec (createContentPlan po) ∧
    (researchTopicWorkflow ro).steps.length = 3 ∧
    statusSpec (researchTopicWorkflow ro) ∧
    (pu.fetch = false →
      (publishContent pu).steps.length = 1 ∧
      (publishContent pu).status = WorkflowStatus.failed ∧
      statusSpec (publishContent pu)) ∧
    (pu.fetch = true →
      (publishContent pu).steps.length = 4 ∧
      statusSpec (publishContent pu)) := by
  refine ⟨rfl, computeStatus_spec _ (by simp [createContentPlan]), rfl,
    computeStatus_spec _ (by simp [researchTopicWorkflow]), ?_, ?_⟩
  · intro hf
    have hpub : publishContent pu =
        ⟨[⟨"fetch page", false, "could not fetch the content page"⟩],
         WorkflowStatus.failed⟩ := by
      unfold publishContent
      rw [hf]
      simp
    rw [hpub]
    have hcs : computeStatus
        [(⟨"fetch page", false, "could not fetch the content page"⟩ :
          WorkflowStepOutcome)] = WorkflowStatus.failed := by
      unfold computeStatus
      simp
    exact ⟨rfl, rfl, by
      rw [← hcs]
      exact computeStatus_spec _ (by simp)⟩
  · intro ht
    unfold publishContent
    rw [ht]
    simp only [if_neg (by simp : ¬ (true = false))]
    exact ⟨rfl, computeStatus_spec _ (by simp)⟩

theorem c1_workflow_result_invariant_witness :
    (createContentPlan ⟨true, true, true, true, true⟩).steps.length = 5 ∧
    statusSpec (createContentPlan ⟨true, true, true, true, true⟩) ∧
    (publishContent ⟨false, BranchOutcome.created, true, true⟩).steps.length = 1 ∧
    (publishContent ⟨false, BranchOutcome.created, true, true⟩).status =
      WorkflowStatus.failed := by
  have h := c1_workflow_result_invariant ⟨true, true, true, true, true⟩
    ⟨true, true, true⟩ ⟨false, BranchOutcome.created, true, true⟩
  exact ⟨h.1, h.2.1, (h.2.2.2.2.1 rfl).1, (h.2.2.2.2.1 rfl).2.1⟩

/-- C2: with depth "basic" the research operation issues exactly one search
query, the bare topic; with depth "comprehensive" — also the zod default
when depth is omitted — exactly five queries in the fixed order: bare topic,
"topic overview", "topic latest trends", "topic best practices",
"topic examples"; and `researchTopic` processes exactly that query list, as
its rendered summary shows. -/
theorem c2_research_query_list (topic : String) (enc : String → String)
    (enabled : Bool) (vendor : String → Except String DDGData) :
    researchQueries topic "basic" = [topic] ∧
    (researchQueries topic "basic").length = 1 ∧
    researchQueries topic "comprehensive" =
      [topic, topic ++ " overview", topic ++ " latest trends",
       topic ++ " best practices", topic ++ " examples"] ∧
    parseResearchTopic [("topic", JVal.jstr topic)] =
      Except.ok ⟨topic, "comprehensive"⟩ ∧
    webResearchTopic enc enabled [("topic", JVal.jstr topic)] vendor =
      ((if enabled then (researchQueries topic "comprehensive").map
          (fun _ => VendorCall.duckduckgoGet) else []),
       Except.ok (textResult (researchSummary topic "comprehensive"
         (researchQueries topic "comprehensive")
         ((researchQueries topic "comprehensive").map (fun q =>
           (q, searchResultText enc enabled q 3 (vendor q))))))) ∧
    webResearchTopic enc enabled
        [("topic", JVal.jstr topic), ("depth", JVal.jstr "basic")] vendor =
      ((if enabled then [VendorCall.duckduckgoGet] else []),
       Except.ok (textResult (researchSummary topic "basic" [topic]
         [(topic, searchResultText enc enabled topic 3 (vendor topic))]))) :=
  ⟨rfl, rfl, rfl, rfl, rfl, rfl⟩

/-- C9: every entry of the Key Findings section includes the query result
truncated to its first five lines — the included lines are an initial
segment of the full result lines, at most five of them, whatever the length
of the underlying text — and the summary renders one such entry for every
query result. -/
theorem c9_five_line_truncation (q r : String) (results : List (String × String))
    (topic depth : String) (queries : List String) :
    keyFindingEntry q r =
      "**" ++ q ++ "**:\n" ++
        String.intercalate "\n" ((r.splitOn "\n").take 5) ++ "..." ∧
    ((r.splitOn "\n").take 5).length ≤ 5 ∧
    (r.splitOn "\n").take 5 ++ (r.splitOn "\n").drop 5 = r.splitOn "\n" ∧
    (results.map (fun p => keyFindingEntry p.1 p.2)).length = results.length ∧
    researchSummary topic depth queries results =
      "🔬 **Research Summary for: \"" ++ topic ++ "\"**\n\n**Research Depth**: " ++
      depth ++ "\n\n**Search Queries Used**:\n" ++
      String.intercalate "\n" (queries.map (fun x => "• " ++ x)) ++
      "\n\n**Key Findings**:\n" ++
      String.intercalate "\n\n" (results.map (fun p => keyFindingEntry p.1 p.2)) ++
      "\n\n**Recommendations**:\n• Consider the latest trends and best practices identified\n• Review multiple sources for comprehensive understanding\n• Focus on practical examples and real-world applications" :=
  ⟨rfl, List.length_take_le 5 _, List.take_append_drop 5 _, List.length_map _ _, rfl⟩

/-- C7: each connector constructor throws its configuration error whenever a
required value is absent, and constructs the configured service whenever
every required value is present (a supplied non-empty string; JavaScript
treats an empty string like an unset variable). -/
theorem c7_constructor_validation
    (ghT ghO ghR nT nD gI gS gU : Option String) :
    ((ghT = none ∨ ghO = none ∨ ghR = none) →
      mkGitHubService ghT ghO ghR = Except.error gitHubConfigMissingMsg) ∧
    (∀ t o r : String, t ≠ "" → o ≠ "" → r ≠ "" →
      mkGitHubService (some t) (some o) (some r) = Except.ok ⟨t, o, r⟩) ∧
    ((nT = none ∨ nD = none) →
      mkNotionService nT nD = Except.error notionConfigMissingMsg) ∧
    (∀ t d : String, t ≠ "" → d ≠ "" →
      mkNotionService (some t) (some d) = Except.ok ⟨t, d⟩) ∧
    ((gI = none ∨ gS = none ∨ gU = none) →
      mkGoogleCalendarService gI gS gU = Except.error googleConfigMissingMsg) ∧
    (∀ i s u : String, i ≠ "" → s ≠ "" → u ≠ "" →
      mkGoogleCalendarService (some i) (some s) (some u) = Except.ok ⟨i, s, u⟩) := by
  refine ⟨?_, ?_, ?_, ?_, ?_, ?_⟩
  · intro h
    unfold mkGitHubService
    rcases h with h | h | h <;> rw [h] <;> simp [jsTruthy]
  · intro t o r ht ho hr
    unfold mkGitHubService
    simp [jsTruthy, String.isEmpty_iff, ht, ho, hr]
  · intro h
    unfold mkNotionService
    rcases h with h | h <;> rw [h] <;> simp [jsTruthy]
  · intro t d ht hd
    unfold mkNotionService
    simp [jsTruthy, String.isEmpty_iff, ht, hd]
  · intro h
    unfold mkGoogleCalendarService
    rcases h with h | h | h <;> rw [h] <;> simp [jsTruthy]
  · intro i s u hi hs hu
    unfold mkGoogleCalendarService
    simp [jsTruthy, String.isEmpty_iff, hi, hs, hu]

theorem c7_constructor_validation_witness :
    mkGitHubService none (some "o") (some "r") =
      Except.error gitHubConfigMissingMsg ∧
    mkGitHubService (some "t") (some "o") (some "r") = Except.ok ⟨"t", "o", "r"⟩ ∧
    mkNotionService (some "t") none = Except.error notionConfigMissingMsg ∧
    mkNotionService (some "t") (some "d") = Except.ok ⟨"t", "d"⟩ ∧
    mkGoogleCalendarService (some "i") (some "s") none =
      Except.error googleConfigMissingMsg ∧
    mkGoogleCalendarService (some "i") (some "s") (some "u") =
      Except.ok ⟨"i", "s", "u"⟩ := by
  obtain ⟨g1, g2, n1, n2, gc1, gc2⟩ :=
    c7_constructor_validation none (some "o") (some "r") (some "t") none
      (some "i") (some "s") none
  exact ⟨g1 (Or.inl rfl), g2 "t" "o" "r" (by decide) (by decide) (by decide),
    n1 (Or.inr rfl), n2 "t" "d" (by decide) (by decide),
    gc1 (Or.inr (Or.inr rfl)), gc2 "i" "s" "u" (by decide) (by decide) (by decide)⟩

/-- C8: every embedded connector operation validates its argument bag first:
when the zod parse fails (a required field missing, a field of the wrong
type, or a value outside a declared enumeration — three such bags shown
concretely), the operation returns the validation error with an empty
vendor-call trace, so no vendor call is made. -/
theorem c8_validation_precedes_vendor_calls :
    (∀ args vendor, parseCreateIssue args = Except.error () →
      githubCreateIssue args vendor = ([], Except.error TError.zod)) ∧
    (∀ cfg args g c, parseCreateBranch args = Except.error () →
      githubCreateBranch cfg args g c = ([], Except.error TError.zod)) ∧
    (∀ args vendor, parseCreatePullRequest args = Except.error () →
      githubCreatePullRequest args vendor = ([], Except.error TError.zod)) ∧
    (∀ args vendor, parseCreatePage args = Except.error () →
      notionCreatePage args vendor = ([], Except.error TError.zod)) ∧
    (∀ args page u a, parseUpdatePage args = Except.error () →
      notionUpdatePage args page u a = ([], page, Except.error TError.zod)) ∧
    (∀ creds now fmt args rr iv, parseCreateEvent args = Except.error () →
      calendarCreateEvent creds now fmt args rr iv = ([], Except.error TError.zod)) ∧
    (∀ creds now fts fmt args rr lv, parseListEvents args = Except.error () →
      calendarListEvents creds now fts fmt args rr lv =
        ([], Except.error TError.zod)) ∧
    (∀ creds now fmt args rr uv, parseUpdateEvent args = Except.error () →
      calendarUpdateEvent creds now fmt args rr uv = ([], Except.error TError.zod)) ∧
    (∀ creds now args rr dv, parseDeleteEvent args = Except.error () →
      calendarDeleteEvent creds now args rr dv = ([], Except.error TError.zod)) ∧
    (∀ enc enabled args v, parseSearch args = Except.error () →
      webSearch enc enabled args v = ([], Except.error TError.zod)) ∧
    (∀ isUrl enabled args v, parseExtractContent isUrl args = Except.error () →
      webExtractContent isUrl enabled args v = ([], Except.error TError.zod)) ∧
    (∀ enc enabled args v, parseResearchTopic args = Except.error () →
      webResearchTopic enc enabled args v = ([], Except.error TError.zod)) ∧
    parseCreateIssue [] = Except.error () ∧
    parseCreateIssue [("title", JVal.jnum 1), ("body", JVal.jstr "b")] =
      Except.error () ∧
    parseUpdatePage [("pageId", JVal.jstr "p"), ("status", JVal.jstr "Weird")] =
      Except.error () := by
  refine ⟨?_, ?_, ?_, ?_, ?_, ?_, ?_, ?_, ?_, ?_, ?_, ?_, rfl, rfl, rfl⟩
  · intro args vendor h
    unfold githubCreateIssue
    rw [h]
  · intro cfg args g c h
    unfold githubCreateBranch
    rw [h]
  · intro args vendor h
    unfold githubCreatePullRequest
    rw [h]
  · intro args vendor h
    unfold notionCreatePage
    rw [h]
  · intro args page u a h
    unfold notionUpdatePage
    rw [h]
  · intro creds now fmt args rr iv h
    unfold calendarCreateEvent
    rw [h]
  · intro creds now fts fmt args rr lv h
    unfold calendarListEvents
    rw [h]
  · intro creds now fmt args rr uv h
    unfold calendarUpdateEvent
    rw [h]
  · intro creds now args rr dv h
    unfold calendarDeleteEvent
    rw [h]
  · intro enc enabled args v h
    unfold webSearch
    rw [h]
  · intro isUrl enabled args v h
    unfold webExtractContent
    rw [h]
  · intro enc enabled args v h
    unfold webResearchTopic
    rw [h]

theorem c8_validation_precedes_vendor_calls_witness :
    githubCreateIssue [] (Except.ok ⟨1, "t", "u", "open"⟩) =
      ([], Except.error TError.zod) ∧
    notionUpdatePage [("pageId", JVal.jstr "p"), ("status", JVal.jstr "Weird")]
        ⟨"T", "Draft", [], []⟩ (Except.ok ()) (Except.ok ()) =
      ([], ⟨"T", "Draft", [], []⟩, Except.error TError.zod) := by
  obtain ⟨h1, _, _, _, h5, _⟩ := c8_validation_precedes_vendor_calls
  exact ⟨h1 [] (Except.ok ⟨1, "t", "u", "open"⟩) rfl,
    h5 [("pageId", JVal.jstr "p"), ("status", JVal.jstr "Weird")]
      ⟨"T", "Draft", [], []⟩ (Except.ok ()) (Except.ok ()) rfl⟩

/-- C10: `NotionService.updatePage` never deletes or replaces existing
content blocks — on every execution path the resulting block list is the
original list plus an optional appended tail — supplying `content` appends
exactly one new paragraph block after the existing content, and a call
supplying neither title, status nor content changes no property and no
block of the page while still returning a success result. -/
theorem c10_update_page_frame (args : Args) (page : NotionPage)
    (u a : Except String Unit) :
    (∃ tail, ((notionUpdatePage args page u a).2.1).blocks = page.blocks ++ tail) ∧
    (∀ input, parseUpdatePage args = Except.ok input →
      u = Except.ok () → a = Except.ok () →
      ((notionUpdatePage args page u a).2.1).blocks =
        page.blocks ++ (match truthyVal input.content with
                        | some c => [c]
                        | none => [])) ∧
    (∀ input, parseUpdatePage args = Except.ok input →
      input.title = none → input.status = none → input.content = none →
      u = Except.ok () →
      (notionUpdatePage args page u a).2.1 = page ∧
      (notionUpdatePage args page u a).2.2 =
        Except.ok (textResult (updatePageText input))) := by
  refine ⟨?_, ?_, ?_⟩
  · cases hp : parseUpdatePage args with
    | error e => exact ⟨[], by simp [notionUpdatePage, hp]⟩
    | ok input =>
      cases u with
      | error m => exact ⟨[], by simp [notionUpdatePage, hp]⟩
      | ok uu =>
        cases htc : truthyVal input.content with
        | none => exact ⟨[], by simp [notionUpdatePage, hp, htc, applyPagesUpdate]⟩
        | some c =>
          cases a with
          | error m =>
            exact ⟨[], by simp [notionUpdatePage, hp, htc, applyPagesUpdate]⟩
          | ok aa =>
            exact ⟨[c], by
              simp [notionUpdatePage, hp, htc, applyPagesUpdate, applyBlocksAppend]⟩
  · intro input hp hu ha
    subst hu
    subst ha
    cases htc : truthyVal input.content with
    | none => simp [notionUpdatePage, hp, htc, applyPagesUpdate]
    | some c => simp [notionUpdatePage, hp, htc, applyPagesUpdate, applyBlocksAppend]
  · intro input hp hT hS hC hu
    subst hu
    have h1 : truthyVal input.title = none := by rw [hT]; rfl
    have h2 : truthyVal input.status = none := by rw [hS]; rfl
    have h3 : truthyVal input.content = none := by rw [hC]; rfl
    constructor
    · simp [notionUpdatePage, hp, h1, h2, h3, applyPagesUpdate]
    · simp [notionUpdatePage, hp, h3]

theorem c10_update_page_frame_witness :
    ((notionUpdatePage [("pageId", JVal.jstr "p"), ("content", JVal.jstr "new text")]
        ⟨"T", "Draft", [], ["old"]⟩ (Except.ok ()) (Except.ok ())).2.1).blocks =
      ["old", "new text"] ∧
    (notionUpdatePage [("pageId", JVal.jstr "p")] ⟨"T", "Draft", [], ["old"]⟩
        (Except.ok ()) (Except.ok ())).2.1 = ⟨"T", "Draft", [], ["old"]⟩ := by
  have h1 := (c10_update_page_frame
    [("pageId", JVal.jstr "p"), ("content", JVal.jstr "new text")]
    ⟨"T", "Draft", [], ["old"]⟩ (Except.ok ()) (Except.ok ())).2.1
    ⟨"p", none, some "new text", none⟩ rfl rfl rfl
  have h2 := (c10_update_page_frame [("pageId", JVal.jstr "p")]
    ⟨"T", "Draft", [], ["old"]⟩ (Except.ok ()) (Except.ok ())).2.2
    ⟨"p", none, none, none⟩ rfl rfl rfl rfl rfl
  exact ⟨by simpa using h1, h2.1⟩

/-- C6 (amended): for every calendar operation, a single call made with a
loaded access token whose `expiry_date` is past and whose refresh succeeds
issues exactly one refresh call, before the substantive calendar API call;
a call with no loaded access token issues no calendar API call at all, and
the auth-required error — whose message names the bootstrap step
`npm run oauth-setup` — propagates (wrapped) from `updateEvent` and
`deleteEvent`, while `createEvent` and `listEvents` catch it and return a
mock success result instead of failing. -/
theorem c6_token_lifecycle (creds fresh : Credentials) (now : Int)
    (fmt : String → String) (fmtTs : Int → String)
    (argsE argsL argsU argsD : Args)
    (inE : CreateEventInput) (inL : ListEventsInput) (inU : UpdateEventInput)
    (inD : DeleteEventInput)
    (insert : Except String EventData) (listv : Except String (List EventItem))
    (updv : Except String EventData) (delv : Except String Unit)
    (hE : parseCreateEvent argsE = Except.ok inE)
    (hL : parseListEvents argsL = Except.ok inL)
    (hU : parseUpdateEvent argsU = Except.ok inU)
    (hD : parseDeleteEvent argsD = Except.ok inD) :
    (jsTruthy creds.access_token = true → expiredNeedsRefresh creds now = true →
      (calendarCreateEvent creds now fmt argsE (Except.ok fresh) insert).1 =
        [VendorCall.oauthRefreshToken, VendorCall.calendarEventsInsert] ∧
      (calendarListEvents creds now fmtTs fmt argsL (Except.ok fresh) listv).1 =
        [VendorCall.oauthRefreshToken, VendorCall.calendarEventsList] ∧
      (calendarUpdateEvent creds now fmt argsU (Except.ok fresh) updv).1 =
        [VendorCall.oauthRefreshToken, VendorCall.calendarEventsUpdate] ∧
      (calendarDeleteEvent creds now argsD (Except.ok fresh) delv).1 =
        [VendorCall.oauthRefreshToken, VendorCall.calendarEventsDelete]) ∧
    (jsTruthy creds.access_token = false → ∀ rr,
      calendarCreateEvent creds now fmt argsE rr insert =
        ([], Except.ok (textResult (mockEventText fmt inE))) ∧
      calendarListEvents creds now fmtTs fmt argsL rr listv =
        ([], Except.ok (textResult (mockEventsText fmtTs now))) ∧
      calendarUpdateEvent creds now fmt argsU rr updv =
        ([], Except.error (TError.err
          ("Failed to update calendar event: " ++ authRequiredMsg))) ∧
      calendarDeleteEvent creds now argsD rr delv =
        ([], Except.error (TError.err
          ("Failed to delete calendar event: " ++ authRequiredMsg)))) ∧
    jsIncludes authRequiredMsg "npm run oauth-setup" = true := by
  refine ⟨?_, ?_, by decide⟩
  · intro htok hexp
    have hens : ensureAuthenticated creds now (Except.ok fresh) =
        ([VendorCall.oauthRefreshToken], Except.ok fresh) := by
      unfold ensureAuthenticated
      rw [htok, hexp]
      simp
    refine ⟨?_, ?_, ?_, ?_⟩
    · cases insert with
      | error m => simp [calendarCreateEvent, hE, hens]
      | ok d => simp [calendarCreateEvent, hE, hens]
    · cases listv with
      | error m =>
        by_cases hm : jsIncludes m "authentication" = true
        · simp [calendarListEvents, hL, hens, hm]
        · simp [calendarListEvents, hL, hens, hm]
      | ok items => simp [calendarListEvents, hL, hens]
    · cases updv with
      | error m => simp [calendarUpdateEvent, hU, hens]
      | ok d => simp [calendarUpdateEvent, hU, hens]
    · cases delv with
      | error m => simp [calendarDeleteEvent, hD, hens]
      | ok d => simp [calendarDeleteEvent, hD, hens]
  · intro htok rr
    have hens : ensureAuthenticated creds now rr = ([], Except.error authRequiredMsg) := by
      unfold ensureAuthenticated
      rw [htok]
      simp
    have hinc : jsIncludes authRequiredMsg "authentication" = true := by decide
    refine ⟨?_, ?_, ?_, ?_⟩
    · simp [calendarCreateEvent, hE, hens]
    · simp [calendarListEvents, hL, hens, hinc]
    · simp [calendarUpdateEvent, hU, hens]
    · simp [calendarDeleteEvent, hD, hens]

theorem c6_token_lifecycle_witness :
    (calendarCreateEvent ⟨some "tok", some "ref", some 100⟩ 200 id
       [("title", JVal.jstr "E"), ("startTime", JVal.jstr "s"),
        ("endTime", JVal.jstr "e")]
       (Except.ok ⟨some "tok2", some "ref", some 1000000⟩)
       (Except.ok ⟨"E", "s", "e", none, [], "u"⟩)).1 =
      [VendorCall.oauthRefreshToken, VendorCall.calendarEventsInsert] ∧
    jsIncludes authRequiredMsg "npm run oauth-setup" = true := by
  have h := c6_token_lifecycle ⟨some "tok", some "ref", some 100⟩
    ⟨some "tok2", some "ref", some 1000000⟩ 200 id (fun _ => "")
    [("title", JVal.jstr "E"), ("startTime", JVal.jstr "s"),
     ("endTime", JVal.jstr "e")]
    [] [("eventId", JVal.jstr "i")] [("eventId", JVal.jstr "i")]
    ⟨"E", none, "s", "e", []⟩ ⟨none, none, 10⟩ ⟨"i", none, none, none, none⟩ ⟨"i"⟩
    (Except.ok ⟨"E", "s", "e", none, [], "u"⟩) (Except.ok [])
    (Except.ok ⟨"E", "s", "e", none, [], "u"⟩) (Except.ok ())
    rfl rfl rfl rfl
  exact ⟨(h.1 (by decide) (by decide)).1, h.2.2⟩

/-- C6 counterexample: the claim as stated requires every calendar operation
with no loaded access token to FAIL with an authentication-required error,
but `createEvent` catches that error and returns a success-shaped mock
result instead. -/
theorem c6_counterexample :
    (calendarCreateEvent ⟨none, none, none⟩ 0 id
       [("title", JVal.jstr "E"), ("startTime", JVal.jstr "s"),
        ("endTime", JVal.jstr "e")]
       (Except.error "x") (Except.error "y")).2 =
      Except.ok (textResult
        ("📅 **Mock Calendar Event Created**\n\n**Event**: E\n\n**Start**: s\n**End**: e\n\n**Description**: Content development deadline\n\n**Attendees**: None\n\n*Note: This is a mock response. In production, complete OAuth authentication to create real calendar events.*")) :=
  rfl

/-- C5 (amended): the token refresh is not a critical section — the source
takes no lock and a second concurrent caller does not wait for an in-flight
refresh.  Under the interleaving in which both callers check the expired
credentials before either refresh resolves, two refresh calls are issued;
only when the first caller completes (issues its refresh and stores the
fresh, unexpired token) before the second caller checks is a single refresh
issued. -/
theorem c5_no_refresh_critical_section (now : Int) (init fresh : Credentials)
    (h1 : jsTruthy init.access_token = true)
    (h2 : expiredNeedsRefresh init now = true)
    (h3 : jsTruthy fresh.access_token = true)
    (h4 : expiredNeedsRefresh fresh now = false) :
    (runSchedule now fresh ⟨⟨init, 0⟩, RefreshPc.ready, RefreshPc.ready⟩
       [true, false, true, false]).shared.refreshCalls = 2 ∧
    (runSchedule now fresh ⟨⟨init, 0⟩, RefreshPc.ready, RefreshPc.ready⟩
       [true, true, false, false]).shared.refreshCalls = 1 := by
  constructor
  · simp [runSchedule, scheduleStep, callerStep, h1, h2, h3, h4]
  · simp [runSchedule, scheduleStep, callerStep, h1, h2, h3, h4]

/-- C5 counterexample: with an expired token loaded and a refresh token
present, the interleaving in which the second caller checks the credentials
while the first caller's refresh is still in flight issues TWO refresh
calls, refuting "at most one refresh call is issued". -/
theorem c5_counterexample :
    (runSchedule 200 ⟨some "tok2", some "ref", some 1000000⟩
       ⟨⟨⟨some "tok", some "ref", some 100⟩, 0⟩, RefreshPc.ready, RefreshPc.ready⟩
       [true, false, true, false]).shared.refreshCalls = 2 := by
  decide

theorem c5_no_refresh_critical_section_witness :
    (runSchedule 200 ⟨some "tok2", some "ref", some 1000000⟩
       ⟨⟨⟨some "tok", some "ref", some 100⟩, 0⟩, RefreshPc.ready, RefreshPc.ready⟩
       [true, true, false, false]).shared.refreshCalls = 1 :=
  (c5_no_refresh_critical_section 200 ⟨some "tok", some "ref", some 100⟩
    ⟨some "tok2", some "ref", some 1000000⟩ (by decide) (by decide) (by decide)
    (by decide)).2

/-- C4 (amended): the research connector's mode is fixed at construction —
live iff `WEB_SEARCH_ENABLED` is exactly `"true"` — and a disabled-mode
search makes no network call and returns only the deterministic placeholder
text; a live-mode search issues exactly one network call, but its returned
results MAY contain placeholder/mock text: the hard-coded mock entries pad
the result list exactly when fewer than `maxResults` organic results are
available, and mock text is returned on vendor error. -/
theorem c4_research_modes (env : Option String) (enc : String → String)
    (args : Args) (input : SearchInput) (vendor : Except String DDGData)
    (q msg : String) (m : Int) (data : DDGData)
    (hp : parseSearch args = Except.ok input) :
    (mkWebSearchService env = true ↔ env = some "true") ∧
    (mkWebSearchService env = false →
      webSearch enc (mkWebSearchService env) args vendor =
        ([], Except.ok (textResult (mockSearchText input.query)))) ∧
    (mkWebSearchService env = true →
      (webSearch enc (mkWebSearchService env) args vendor).1 =
        [VendorCall.duckduckgoGet]) ∧
    (((organicResults m data).length : Int) < m →
      liveSearchResults enc q m data =
        organicResults m data ++
          jsSliceEnd (mockSearchItems enc q)
            (m - ((organicResults m data).length : Int))) ∧
    (¬ ((organicResults m data).length : Int) < m →
      liveSearchResults enc q m data = organicResults m data) ∧
    (webSearch enc true args (Except.error msg) =
      ([VendorCall.duckduckgoGet],
       Except.ok (textResult (errorMockSearchText input.query)))) := by
  refine ⟨?_, ?_, ?_, ?_, ?_, ?_⟩
  · simp [mkWebSearchService]
  · intro h
    rw [h]
    simp [webSearch, hp, searchResultText]
  · intro h
    rw [h]
    simp [webSearch, hp]
  · intro h
    unfold liveSearchResults
    simp only [if_pos h]
  · intro h
    unfold liveSearchResults
    simp only [if_neg h]
  · simp [webSearch, hp, searchResultText]

theorem c4_research_modes_witness :
    webSearch id (mkWebSearchService none) [("query", JVal.jstr "q")]
      (Except.ok ⟨none, none, none, []⟩) =
      ([], Except.ok (textResult (mockSearchText "q"))) :=
  (c4_research_modes none id [("query", JVal.jstr "q")] ⟨"q", 5⟩
    (Except.ok ⟨none, none, none, []⟩) "q" "m" 5 ⟨none, none, none, []⟩ rfl).2.1 rfl

/-- C4 counterexample: a live-mode search whose vendor response carries no
abstract and no related topics returns a result rendered entirely from the
hard-coded mock placeholder items, refuting "a live-mode call's returned
results never contain placeholder/mock text". -/
theorem c4_counterexample :
    webSearch id true [("query", JVal.jstr "q")]
      (Except.ok ⟨none, none, none, []⟩) =
      ([VendorCall.duckduckgoGet],
       Except.ok (textResult (renderSearchResults "q" (mockSearchItems id "q")))) :=
  rfl

/-- C3 (amended): on vendor failure the GitHub and Notion operations, and
the calendar `updateEvent`/`deleteEvent` (and `listEvents` when the failure
message does not mention authentication), re-signal a wrapped,
connector-specific, human-readable error; the research connector's
`search`/`extractContent` and the calendar `createEvent` (and `listEvents`
on authentication-mentioning failures) instead return a success-shaped
content result carrying mock/fallback text. -/
theorem c3_vendor_failure_signalling
    (cfg : GitHubConfig) (msg : String)
    (argsI argsB argsP argsCP argsUP argsE argsL argsU argsD argsS argsX : Args)
    (inI : CreateIssueInput) (inB : CreateBranchInput)
    (inP : CreatePullRequestInput) (inCP : CreatePageInput)
    (inUP : UpdatePageInput) (inE : CreateEventInput) (inL : ListEventsInput)
    (inU : UpdateEventInput) (inD : DeleteEventInput) (inS : SearchInput)
    (inX : ExtractContentInput)
    (page : NotionPage) (creds : Credentials) (now : Int)
    (fmt : String → String) (fmtTs : Int → String) (enc : String → String)
    (isUrl : String → Bool) (a cr : Except String Unit)
    (hI : parseCreateIssue argsI = Except.ok inI)
    (hB : parseCreateBranch argsB = Except.ok inB)
    (hP : parseCreatePullRequest argsP = Except.ok inP)
    (hCP : parseCreatePage argsCP = Except.ok inCP)
    (hUP : parseUpdatePage argsUP = Except.ok inUP)
    (hE : parseCreateEvent argsE = Except.ok inE)
    (hL : parseListEvents argsL = Except.ok inL)
    (hU : parseUpdateEvent argsU = Except.ok inU)
    (hD : parseDeleteEvent argsD = Except.ok inD)
    (hS : parseSearch argsS = Except.ok inS)
    (hX : parseExtractContent isUrl argsX = Except.ok inX)
    (htok : jsTruthy creds.access_token = true)
    (hexp : expiredNeedsRefresh creds now = false) :
    (githubCreateIssue argsI (Except.error msg)).2 =
      Except.error (TError.err ("Failed to create GitHub issue: " ++ msg)) ∧
    (githubCreateBranch cfg argsB (Except.error msg) cr).2 =
      Except.error (TError.err ("Failed to create GitHub branch: " ++ msg)) ∧
    (githubCreateBranch cfg argsB (Except.ok "sha") (Except.error msg)).2 =
      Except.error (TError.err ("Failed to create GitHub branch: " ++ msg)) ∧
    (githubCreatePullRequest argsP (Except.error msg)).2 =
      Except.error (TError.err ("Failed to create GitHub pull request: " ++ msg)) ∧
    (notionCreatePage argsCP (Except.error msg)).2 =
      Except.error (TError.err ("Failed to create Notion page: " ++ msg)) ∧
    (notionUpdatePage argsUP page (Except.error msg) a).2.2 =
      Except.error (TError.err ("Failed to update Notion page: " ++ msg)) ∧
    (calendarUpdateEvent creds now fmt argsU (Except.ok creds)
       (Except.error msg)).2 =
      Except.error (TError.err ("Failed to update calendar event: " ++ msg)) ∧
    (calendarDeleteEvent creds now argsD (Except.ok creds)
       (Except.error msg)).2 =
      Except.error (TError.err ("Failed to delete calendar event: " ++ msg)) ∧
    (jsIncludes msg "authentication" = false →
      (calendarListEvents creds now fmtTs fmt argsL (Except.ok creds)
         (Except.error msg)).2 =
        Except.error (TError.err ("Failed to list calendar events: " ++ msg))) ∧
    (webSearch enc true argsS (Except.error msg)).2 =
      Except.ok (textResult (errorMockSearchText inS.query)) ∧
    (calendarCreateEvent creds now fmt argsE (Except.ok creds)
       (Except.error msg)).2 =
      Except.ok (textResult (mockEventText fmt inE)) ∧
    (jsIncludes msg "authentication" = true →
      (calendarListEvents creds now fmtTs fmt argsL (Except.ok creds)
         (Except.error msg)).2 =
        Except.ok (textResult (mockEventsText fmtTs now))) ∧
    (webExtractContent isUrl true argsX (Except.error msg)).2 =
      Except.ok (textResult
        ("❌ **Content Extraction Failed**\n\n**URL**: " ++ inX.url ++
         "\n\n**Error**: " ++ msg ++
         "\n\n*The content could not be extracted from this URL. This might be due to access restrictions, network issues, or the page structure.*")) := by
  have hens : ∀ rr, ensureAuthenticated creds now rr = ([], Except.ok creds) := by
    intro rr
    unfold ensureAuthenticated
    rw [htok, hexp]
    simp
  refine ⟨?_, ?_, ?_, ?_, ?_, ?_, ?_, ?_, ?_, ?_, ?_, ?_, ?_⟩
  · simp [githubCreateIssue, hI]
  · simp [githubCreateBranch, hB]
  · simp [githubCreateBranch, hB]
  · simp [githubCreatePullRequest, hP]
  · simp [notionCreatePage, hCP]
  · simp [notionUpdatePage, hUP]
  · simp [calendarUpdateEvent, hU, hens]
  · simp [calendarDeleteEvent, hD, hens]
  · intro hm
    simp [calendarListEvents, hL, hens, hm]
  · simp [webSearch, hS, searchResultText]
  · simp [calendarCreateEvent, hE, hens]
  · intro hm
    simp [calendarListEvents, hL, hens, hm]
  · simp [webExtractContent, hX]

theorem c3_vendor_failure_signalling_witness :
    (githubCreateIssue [("title", JVal.jstr "t"), ("body", JVal.jstr "b")]
       (Except.error "boom")).2 =
      Except.error (TError.err ("Failed to create GitHub issue: " ++ "boom")) ∧
    (calendarCreateEvent ⟨some "tok", none, none⟩ 0 id
       [("title", JVal.jstr "E"), ("startTime", JVal.jstr "s"),
        ("endTime", JVal.jstr "e")]
       (Except.ok ⟨some "tok", none, none⟩) (Except.error "boom")).2 =
      Except.ok (textResult (mockEventText id ⟨"E", none, "s", "e", []⟩)) := by
  have h := c3_vendor_failure_signalling ⟨"t", "o", "r"⟩ "boom"
    [("title", JVal.jstr "t"), ("body", JVal.jstr "b")]
    [("branchName", JVal.jstr "br")]
    [("title", JVal.jstr "t"), ("body", JVal.jstr "b"), ("head", JVal.jstr "h")]
    [("title", JVal.jstr "t"), ("content", JVal.jstr "c")]
    [("pageId", JVal.jstr "p")]
    [("title", JVal.jstr "E"), ("startTime", JVal.jstr "s"),
     ("endTime", JVal.jstr "e")]
    [] [("eventId", JVal.jstr "i")] [("eventId", JVal.jstr "i")]
    [("query", JVal.jstr "q")] [("url", JVal.jstr "http://x")]
    ⟨"t", "b", []⟩ ⟨"br", "main"⟩ ⟨"t", "b", "h", "main"⟩ ⟨"t", "c", []⟩
    ⟨"p", none, none, none⟩ ⟨"E", none, "s", "e", []⟩ ⟨none, none, 10⟩
    ⟨"i", none, none, none, none⟩ ⟨"i"⟩ ⟨"q", 5⟩ ⟨"http://x"⟩
    ⟨"T", "Draft", [], []⟩ ⟨some "tok", none, none⟩ 0 id (fun _ => "") id
    (fun _ => true) (Except.ok ()) (Except.ok ())
    rfl rfl rfl rfl rfl rfl rfl rfl rfl rfl rfl (by decide) (by decide)
  exact ⟨h.1, h.2.2.2.2.2.2.2.2.2.2.1⟩

/-- C3 counterexample: a live-mode web search whose vendor call fails
returns a normal success-shaped content result carrying mock text, not a
wrapped error — refuting the claim for the research connector. -/
theorem c3_counterexample :
    (webSearch id true [("query", JVal.jstr "q")] (Except.error "network down")).2 =
      Except.ok (textResult (errorMockSearchText "q")) :=
  rfl

end MCP
